import Mathlib

/-!
Shallow embedding of `src/firmware/src/app.c` (winc-update): a cooperative
polling state machine that mounts an SD card, lists the root directory on the
console, and parks in a terminal `COMPLETE` or `ERROR` state.

The C code's collaborators (`SYS_FS_Mount`, `SYS_FS_CurrentDriveSet`,
`SYS_FS_DirOpen`, `SYS_FS_DirRead`, `SYS_FS_DirClose`) are modelled by an
environment record `FsEnv` giving the result each primitive would return on
the current tick.  One invocation of `APP_Tasks` is a pure function from the
environment and the context `s_app_ctx` to the new context together with the
list of console/log outputs emitted and the list of filesystem primitives
invoked (in call order).  `run` iterates ticks over a script of environments.

Machine integers: `mount_retries` is a C `uint32_t`, embedded as `Nat` with an
explicit `% 2^32` at the single increment site.  `SYS_FS_HANDLE` is embedded
as `Option Nat` with `SYS_FS_HANDLE_INVALID = none`.  `fsize` is a `uint32_t`
printed with `%ld`; on the 32-bit target `long` is 32 bits, so the rendering
reinterprets the value as a signed 32-bit integer (`uint32_as_long`).
-/

/-- The state enumeration of `app_state_t` (app.c lines 42-52). -/
inductive app_state_t where
  | APP_STATE_IDLE
  | APP_STATE_AWAIT_FILESYSTEM
  | APP_STATE_OPENING_DIRECTORY
  | APP_STATE_READING_DIRECTORY
  | APP_STATE_CLOSING_DIRECTORY
  | APP_STATE_COMPLETE
  | APP_STATE_ERROR
deriving DecidableEq, Repr

open app_state_t

/-- Result type of the `SYS_FS` collaborator calls that return a status. -/
inductive SYS_FS_RESULT where
  | SYS_FS_RES_SUCCESS
  | SYS_FS_RES_FAILURE
deriving DecidableEq, Repr

open SYS_FS_RESULT

/-- `SYS_FS_HANDLE`: an opaque handle; `none` stands for
`SYS_FS_HANDLE_INVALID`. -/
abbrev SYS_FS_HANDLE := Option Nat

/-- The invalid handle constant. -/
def SYS_FS_HANDLE_INVALID : SYS_FS_HANDLE := none

/-- The `SYS_FS_FSTAT` record as used by app.c: the short name field
`fname`, the long name written through the `lfname` pointer into
`s_filename`, and the file size `fsize` (a `uint32_t`, kept below `2^32`). -/
structure SYS_FS_FSTAT where
  fname : String
  lfname : String
  fsize : Nat
deriving DecidableEq, Repr

/-- The application context `app_ctx_t` (app.c lines 54-58). -/
structure app_ctx_t where
  state : app_state_t
  mount_retries : Nat
  dir_handle : SYS_FS_HANDLE
deriving DecidableEq, Repr

/-- `SYS_DEBUG_PRINT` severities used by app.c. -/
inductive Severity where
  | SYS_ERROR_DEBUG
  | SYS_ERROR_ERROR
  | SYS_ERROR_INFO
deriving DecidableEq, Repr

open Severity

/-- One observable output emitted during a tick.  `transitionLog` is the
`SYS_DEBUG_PRINT(SYS_ERROR_DEBUG, "%s => %s", ...)` emitted by `set_state`
(tagged separately so that transition logs are identifiable); `debugPrint`
covers the other `SYS_DEBUG_PRINT` sites; `consoleMessage` and `consolePrint`
are `SYS_CONSOLE_MESSAGE` and `SYS_CONSOLE_PRINT`. -/
inductive Output where
  | transitionLog (s : String)
  | debugPrint (sev : Severity) (s : String)
  | consoleMessage (s : String)
  | consolePrint (s : String)
deriving DecidableEq, Repr

/-- One filesystem primitive invocation, with the handle argument where the
call takes one. -/
inductive FsOp where
  | mount
  | currentDriveSet
  | dirOpen
  | dirRead (h : SYS_FS_HANDLE)
  | dirClose (h : SYS_FS_HANDLE)
deriving DecidableEq, Repr

/-- Per-tick collaborator behaviour: the value each `SYS_FS` primitive would
return if called on this tick (`dirRead = none` models
`SYS_FS_RES_FAILURE`; `some stat` models success filling `stat`). -/
structure FsEnv where
  mount : SYS_FS_RESULT
  currentDriveSet : SYS_FS_RESULT
  fsError : Int
  dirOpen : SYS_FS_HANDLE
  dirRead : Option SYS_FS_FSTAT
  dirClose : SYS_FS_RESULT
deriving DecidableEq, Repr

/-- `SD_DEVICE_NAME` (app.c line 39). -/
def SD_DEVICE_NAME : String := "/dev/mmcblka1"

/-- `SD_MOUNT_NAME` (app.c line 40). -/
def SD_MOUNT_NAME : String := "/mnt/mydrive"

/-- `state_name` (app.c lines 198-201): the macro-generated name table. -/
def state_name : app_state_t → String
  | APP_STATE_IDLE => "APP_STATE_IDLE"
  | APP_STATE_AWAIT_FILESYSTEM => "APP_STATE_AWAIT_FILESYSTEM"
  | APP_STATE_OPENING_DIRECTORY => "APP_STATE_OPENING_DIRECTORY"
  | APP_STATE_READING_DIRECTORY => "APP_STATE_READING_DIRECTORY"
  | APP_STATE_CLOSING_DIRECTORY => "APP_STATE_CLOSING_DIRECTORY"
  | APP_STATE_COMPLETE => "APP_STATE_COMPLETE"
  | APP_STATE_ERROR => "APP_STATE_ERROR"

/-- `%ld` rendering of a `uint32_t` value on the 32-bit target, where `long`
is 32 bits: values at or above `2^31` are reinterpreted as negative. -/
def uint32_as_long (n : Nat) : Int :=
  if n % 4294967296 < 2147483648 then ((n % 4294967296 : Nat) : Int)
  else ((n % 4294967296 : Nat) : Int) - 4294967296

/-- Right-justify a string in a field of the given width by padding with
spaces on the left (printf never truncates when the value is wider). -/
def right_justify (width : Nat) (s : String) : String :=
  String.mk (List.replicate (width - s.length) ' ') ++ s

/-- The console line printed for one directory entry (app.c line 161):
`SYS_CONSOLE_PRINT("\n%12ld %s", stat.fsize, stat.fname)`. -/
def entry_line (stat : SYS_FS_FSTAT) : String :=
  "\n" ++ right_justify 12 (toString (uint32_as_long stat.fsize)) ++ " " ++ stat.fname

/-- `set_state` (app.c lines 188-196): commit a requested state; when it
differs from the current state, first emit the `"%s => %s"` transition log. -/
def set_state (ctx : app_ctx_t) (state : app_state_t) : app_ctx_t × List Output :=
  if ctx.state ≠ state then
    ({ ctx with state := state },
     [Output.transitionLog (state_name ctx.state ++ " => " ++ state_name state)])
  else (ctx, [])

/-- Result of one `APP_Tasks` invocation: the new context, the outputs
emitted (in order), and the filesystem primitives invoked (in order). -/
structure TickResult where
  ctx : app_ctx_t
  outputs : List Output
  ops : List FsOp
deriving DecidableEq, Repr

/-- `APP_Tasks` (app.c lines 99-183), one invocation, as a pure function of
the collaborator environment and the context. -/
def APP_Tasks (env : FsEnv) (ctx : app_ctx_t) : TickResult :=
  match ctx.state with
  | APP_STATE_IDLE =>
      let (c, out) := set_state ctx APP_STATE_AWAIT_FILESYSTEM
      ⟨c, out, []⟩
  | APP_STATE_AWAIT_FILESYSTEM =>
      let ctx := { ctx with mount_retries := (ctx.mount_retries + 1) % 4294967296 }
      if env.mount = SYS_FS_RES_SUCCESS then
        let mountedLog := Output.debugPrint SYS_ERROR_DEBUG
          ("\nSD card mounted after " ++ toString (uint32_as_long ctx.mount_retries)
            ++ " attempts")
        if env.currentDriveSet = SYS_FS_RES_FAILURE then
          let errLog := Output.debugPrint SYS_ERROR_ERROR
            ("\nUnable to select drive, error " ++ toString env.fsError)
          let (c, out) := set_state ctx APP_STATE_ERROR
          ⟨c, mountedLog :: errLog :: out, [FsOp.mount, FsOp.currentDriveSet]⟩
        else
          let (c, out) := set_state ctx APP_STATE_OPENING_DIRECTORY
          ⟨c, mountedLog :: out, [FsOp.mount, FsOp.currentDriveSet]⟩
      else
        if ctx.mount_retries % 100000 = 0 then
          ⟨ctx,
           [Output.debugPrint SYS_ERROR_INFO
             ("\nSD card not ready after " ++ toString (uint32_as_long ctx.mount_retries)
               ++ " attempts")],
           [FsOp.mount]⟩
        else ⟨ctx, [], [FsOp.mount]⟩
  | APP_STATE_OPENING_DIRECTORY =>
      let ctx := { ctx with dir_handle := env.dirOpen }
      if ctx.dir_handle ≠ SYS_FS_HANDLE_INVALID then
        let (c, out) := set_state ctx APP_STATE_READING_DIRECTORY
        ⟨c, Output.consoleMessage "\nsize (bytes) filename" :: out, [FsOp.dirOpen]⟩
      else
        let errLog := Output.debugPrint SYS_ERROR_ERROR
          ("\nUnable to open directory " ++ SD_MOUNT_NAME ++ "/")
        let (c, out) := set_state ctx APP_STATE_ERROR
        ⟨c, errLog :: out, [FsOp.dirOpen]⟩
  | APP_STATE_READING_DIRECTORY =>
      match env.dirRead with
      | none =>
          let errLog := Output.debugPrint SYS_ERROR_ERROR
            ("\nUnable to read directory " ++ SD_MOUNT_NAME ++ "/")
          let (c, out) := set_state ctx APP_STATE_ERROR
          ⟨c, errLog :: out, [FsOp.dirRead ctx.dir_handle]⟩
      | some stat =>
          if stat.lfname = "" ∧ stat.fname = "" then
            let (c, out) := set_state ctx APP_STATE_CLOSING_DIRECTORY
            ⟨c, Output.consoleMessage "\nDirectory listing complete" :: out,
             [FsOp.dirRead ctx.dir_handle]⟩
          else
            ⟨ctx, [Output.consolePrint (entry_line stat)], [FsOp.dirRead ctx.dir_handle]⟩
  | APP_STATE_CLOSING_DIRECTORY =>
      let closedHandle := ctx.dir_handle
      let closeOut :=
        if env.dirClose ≠ SYS_FS_RES_SUCCESS then
          [Output.debugPrint SYS_ERROR_ERROR
            ("\nClosing directory " ++ SD_MOUNT_NAME ++ "/ failed")]
        else []
      let ctx := { ctx with dir_handle := SYS_FS_HANDLE_INVALID }
      let (c, out) := set_state ctx APP_STATE_COMPLETE
      ⟨c, closeOut ++ out, [FsOp.dirClose closedHandle]⟩
  | APP_STATE_COMPLETE => ⟨ctx, [], []⟩
  | APP_STATE_ERROR => ⟨ctx, [], []⟩

/-- The context as left by `APP_Initialize` (app.c lines 88-97). -/
def APP_Initialize : app_ctx_t :=
  { state := APP_STATE_IDLE, mount_retries := 0, dir_handle := SYS_FS_HANDLE_INVALID }

/-- Result of running a script of ticks: final context, concatenated outputs
and primitive calls, and the state observed at the start of each tick. -/
structure RunResult where
  ctx : app_ctx_t
  outputs : List Output
  ops : List FsOp
  visited : List app_state_t
deriving DecidableEq, Repr

/-- Iterate `APP_Tasks` over a script of per-tick environments. -/
def run : List FsEnv → app_ctx_t → RunResult
  | [], ctx => ⟨ctx, [], [], []⟩
  | env :: rest, ctx =>
      let t := APP_Tasks env ctx
      let r := run rest t.ctx
      ⟨r.ctx, t.outputs ++ r.outputs, t.ops ++ r.ops, ctx.state :: r.visited⟩

/-- Recognize the throttled still-waiting diagnostic: it is the only output
emitted at `SYS_ERROR_INFO` severity anywhere in app.c. -/
def is_info_log : Output → Bool
  | Output.debugPrint SYS_ERROR_INFO _ => true
  | _ => false

/-- Recognize the `set_state` transition log. -/
def is_transition_log : Output → Bool
  | Output.transitionLog _ => true
  | _ => false

/-- The four filesystem primitives named by the bounded-work contract
(mount, directory open, directory read, directory close);
`SYS_FS_CurrentDriveSet` is not among them. -/
def is_listed_fs_op : FsOp → Bool
  | FsOp.currentDriveSet => false
  | _ => true

/-- Directory operations (open, read, close). -/
def is_dir_op : FsOp → Bool
  | FsOp.dirOpen => true
  | FsOp.dirRead _ => true
  | FsOp.dirClose _ => true
  | _ => false

/-- An environment where every collaborator call fails (mount failure,
drive-set failure, open returns the invalid handle, read fails, close
fails). -/
def fail_env : FsEnv :=
  { mount := SYS_FS_RES_FAILURE, currentDriveSet := SYS_FS_RES_FAILURE, fsError := 0,
    dirOpen := none, dirRead := none, dirClose := SYS_FS_RES_FAILURE }

/-- An environment where the mount and the drive-set succeed. -/
def await_ok_env : FsEnv :=
  { fail_env with mount := SYS_FS_RES_SUCCESS, currentDriveSet := SYS_FS_RES_SUCCESS }

/-- An environment where the directory open succeeds with handle 7. -/
def open_ok_env : FsEnv := { fail_env with dirOpen := some 7 }

/-- An environment where the directory read succeeds and fills the given
status record. -/
def read_env (stat : SYS_FS_FSTAT) : FsEnv := { fail_env with dirRead := some stat }

/-- The end-of-directory status record: both name fields empty. -/
def dir_terminator : SYS_FS_FSTAT := { fname := "", lfname := "", fsize := 0 }

lemma run_from_complete (r : Nat) (hdl : SYS_FS_HANDLE) (envs : List FsEnv) :
    run envs ⟨APP_STATE_COMPLETE, r, hdl⟩ =
      ⟨⟨APP_STATE_COMPLETE, r, hdl⟩, [], [], List.replicate envs.length APP_STATE_COMPLETE⟩ := by
  induction envs with
  | nil => rfl
  | cons e rest ih => simp [run, APP_Tasks, ih, List.replicate_succ]

lemma run_from_error (r : Nat) (hdl : SYS_FS_HANDLE) (envs : List FsEnv) :
    run envs ⟨APP_STATE_ERROR, r, hdl⟩ =
      ⟨⟨APP_STATE_ERROR, r, hdl⟩, [], [], List.replicate envs.length APP_STATE_ERROR⟩ := by
  induction envs with
  | nil => rfl
  | cons e rest ih => simp [run, APP_Tasks, ih, List.replicate_succ]

/-- C5: invoking the dispatcher any number of times while the state is
`Complete` or `Error` leaves the whole context unchanged, performs no
filesystem operation, and emits no output at all (in particular no
transition log). -/
theorem C5_terminal_states_are_noops (r : Nat) (hdl : SYS_FS_HANDLE) (envs : List FsEnv) :
    run envs ⟨APP_STATE_COMPLETE, r, hdl⟩ =
      ⟨⟨APP_STATE_COMPLETE, r, hdl⟩, [], [], List.replicate envs.length APP_STATE_COMPLETE⟩ ∧
    run envs ⟨APP_STATE_ERROR, r, hdl⟩ =
      ⟨⟨APP_STATE_ERROR, r, hdl⟩, [], [], List.replicate envs.length APP_STATE_ERROR⟩ :=
  ⟨run_from_complete r hdl envs, run_from_error r hdl envs⟩

/-- C6: the state setter is a no-op (and silent) when the requested state
equals the current one; otherwise it emits exactly one transition log of the
form `<old-name> => <new-name>` and commits the requested state. -/
theorem C6_set_state_contract (ctx : app_ctx_t) (s : app_state_t) :
    set_state ctx s =
      if s = ctx.state then (ctx, [])
      else ({ ctx with state := s },
        [Output.transitionLog (state_name ctx.state ++ " => " ++ state_name s)]) := by
  by_cases h : ctx.state = s
  · subst h; simp [set_state]
  · unfold set_state
    rw [if_pos h, if_neg (fun hh : s = ctx.state => h hh.symm)]

/-- C7: a tick in `ClosingDirectory` always clears the stored handle and
transitions to `Complete`; a close failure only prepends an error log. -/
theorem C7_closing_always_completes (env : FsEnv) (r : Nat) (hdl : SYS_FS_HANDLE) :
    APP_Tasks env ⟨APP_STATE_CLOSING_DIRECTORY, r, hdl⟩ =
      ⟨⟨APP_STATE_COMPLETE, r, SYS_FS_HANDLE_INVALID⟩,
       (if env.dirClose ≠ SYS_FS_RES_SUCCESS then
          [Output.debugPrint SYS_ERROR_ERROR
            ("\nClosing directory " ++ SD_MOUNT_NAME ++ "/ failed")]
        else []) ++
         [Output.transitionLog (state_name APP_STATE_CLOSING_DIRECTORY ++ " => " ++
           state_name APP_STATE_COMPLETE)],
       [FsOp.dirClose hdl]⟩ := by
  cases h : env.dirClose <;> simp [APP_Tasks, set_state, h]

/-- C8: one dispatcher invocation calls at most one of the four primitives of
the bounded-work contract (mount, directory open, directory read, directory
close) and emits at most one transition log (hence commits at most one state
transition). -/
theorem C8_bounded_work_per_tick (env : FsEnv) (ctx : app_ctx_t) :
    ((APP_Tasks env ctx).ops.filter is_listed_fs_op).length ≤ 1 ∧
    ((APP_Tasks env ctx).outputs.filter is_transition_log).length ≤ 1 := by
  obtain ⟨s, r, hdl⟩ := ctx
  cases s
  case APP_STATE_IDLE =>
    simp [APP_Tasks, set_state, is_listed_fs_op, is_transition_log]
  case APP_STATE_AWAIT_FILESYSTEM =>
    by_cases hm : env.mount = SYS_FS_RES_SUCCESS
    · by_cases hc : env.currentDriveSet = SYS_FS_RES_FAILURE <;>
        simp [APP_Tasks, set_state, hm, hc, is_listed_fs_op, is_transition_log]
    · by_cases ht : (r + 1) % 4294967296 % 100000 = 0 <;>
        simp [APP_Tasks, hm, ht, is_listed_fs_op, is_transition_log]
  case APP_STATE_OPENING_DIRECTORY =>
    cases ho : env.dirOpen <;>
      simp [APP_Tasks, set_state, ho, SYS_FS_HANDLE_INVALID,
        is_listed_fs_op, is_transition_log]
  case APP_STATE_READING_DIRECTORY =>
    cases hr : env.dirRead with
    | none =>
      simp [APP_Tasks, set_state, hr, is_listed_fs_op, is_transition_log]
    | some stat =>
      by_cases hterm : stat.lfname = "" ∧ stat.fname = "" <;>
        simp [APP_Tasks, set_state, hr, hterm, is_listed_fs_op, is_transition_log]
  case APP_STATE_CLOSING_DIRECTORY =>
    cases hc : env.dirClose <;>
      simp [APP_Tasks, set_state, hc, is_listed_fs_op, is_transition_log]
  case APP_STATE_COMPLETE =>
    simp [APP_Tasks, is_listed_fs_op, is_transition_log]
  case APP_STATE_ERROR =>
    simp [APP_Tasks, is_listed_fs_op, is_transition_log]

lemma await_fail_tick (env : FsEnv) (hm : env.mount = SYS_FS_RES_FAILURE)
    (r : Nat) (hdl : SYS_FS_HANDLE) :
    (APP_Tasks env ⟨APP_STATE_AWAIT_FILESYSTEM, r, hdl⟩).ctx =
      ⟨APP_STATE_AWAIT_FILESYSTEM, (r + 1) % 4294967296, hdl⟩ := by
  have hm' : ¬env.mount = SYS_FS_RES_SUCCESS := by rw [hm]; intro h; cases h
  by_cases ht : (r + 1) % 4294967296 % 100000 = 0 <;> simp [APP_Tasks, hm', ht]

lemma mount_failure_stays_in_await (envs : List FsEnv) :
    ∀ r hdl, (∀ e ∈ envs, e.mount = SYS_FS_RES_FAILURE) →
      (run envs ⟨APP_STATE_AWAIT_FILESYSTEM, r, hdl⟩).ctx.state =
        APP_STATE_AWAIT_FILESYSTEM ∧
      (run envs ⟨APP_STATE_AWAIT_FILESYSTEM, r, hdl⟩).ctx.dir_handle = hdl := by
  induction envs with
  | nil => intro r hdl _; exact ⟨rfl, rfl⟩
  | cons e rest ih =>
    intro r hdl h
    have he : e.mount = SYS_FS_RES_FAILURE := h e (List.mem_cons_self e rest)
    have hr : ∀ e' ∈ rest, e'.mount = SYS_FS_RES_FAILURE :=
      fun e' he' => h e' (List.mem_cons_of_mem e he')
    simp only [run, await_fail_tick e he r hdl]
    exact ih ((r + 1) % 4294967296) hdl hr

/-- C3 (amended): a drive-set, directory-open or directory-read failure each
drives the machine to `Error`; once in `Error` the context never changes and
no filesystem primitive (in particular no directory operation) is ever called
again; an injected mount failure, by contrast, keeps the machine retrying in
`AwaitFilesystem` and never reaches `Error`. -/
theorem C3_failure_injection :
    (∀ (env : FsEnv) (r : Nat) (hdl : SYS_FS_HANDLE),
      env.mount = SYS_FS_RES_SUCCESS → env.currentDriveSet = SYS_FS_RES_FAILURE →
      (APP_Tasks env ⟨APP_STATE_AWAIT_FILESYSTEM, r, hdl⟩).ctx.state = APP_STATE_ERROR) ∧
    (∀ (env : FsEnv) (r : Nat) (hdl : SYS_FS_HANDLE),
      env.dirOpen = SYS_FS_HANDLE_INVALID →
      (APP_Tasks env ⟨APP_STATE_OPENING_DIRECTORY, r, hdl⟩).ctx.state = APP_STATE_ERROR) ∧
    (∀ (env : FsEnv) (r : Nat) (hdl : SYS_FS_HANDLE),
      env.dirRead = none →
      (APP_Tasks env ⟨APP_STATE_READING_DIRECTORY, r, hdl⟩).ctx.state = APP_STATE_ERROR) ∧
    (∀ (envs : List FsEnv) (r : Nat) (hdl : SYS_FS_HANDLE),
      (run envs ⟨APP_STATE_ERROR, r, hdl⟩).ctx = ⟨APP_STATE_ERROR, r, hdl⟩ ∧
      (run envs ⟨APP_STATE_ERROR, r, hdl⟩).ops = []) ∧
    (∀ (envs : List FsEnv) (r : Nat) (hdl : SYS_FS_HANDLE),
      (∀ e ∈ envs, e.mount = SYS_FS_RES_FAILURE) →
      (run envs ⟨APP_STATE_AWAIT_FILESYSTEM, r, hdl⟩).ctx.state =
        APP_STATE_AWAIT_FILESYSTEM) := by
  refine ⟨?_, ?_, ?_, ?_, ?_⟩
  · intro env r hdl hm hc
    simp [APP_Tasks, set_state, hm, hc]
  · intro env r hdl ho
    simp [APP_Tasks, set_state, ho, SYS_FS_HANDLE_INVALID]
  · intro env r hdl hr
    simp [APP_Tasks, set_state, hr]
  · intro envs r hdl
    rw [run_from_error]
    exact ⟨rfl, rfl⟩
  · intro envs r hdl h
    exact (mount_failure_stays_in_await envs r hdl h).1

/-- C3 witness: each part of `C3_failure_injection` instantiated at a
concrete input. -/
theorem C3_failure_injection_witness :
    (APP_Tasks { await_ok_env with currentDriveSet := SYS_FS_RES_FAILURE }
        ⟨APP_STATE_AWAIT_FILESYSTEM, 0, none⟩).ctx.state = APP_STATE_ERROR ∧
    (APP_Tasks fail_env ⟨APP_STATE_OPENING_DIRECTORY, 1, none⟩).ctx.state =
        APP_STATE_ERROR ∧
    (APP_Tasks fail_env ⟨APP_STATE_READING_DIRECTORY, 1, some 7⟩).ctx.state =
        APP_STATE_ERROR ∧
    (run [fail_env, open_ok_env] ⟨APP_STATE_ERROR, 1, some 7⟩).ops = [] ∧
    (run [fail_env, fail_env] ⟨APP_STATE_AWAIT_FILESYSTEM, 0, none⟩).ctx.state =
        APP_STATE_AWAIT_FILESYSTEM :=
  ⟨C3_failure_injection.1 _ 0 none rfl rfl,
   C3_failure_injection.2.1 fail_env 1 none rfl,
   C3_failure_injection.2.2.1 fail_env 1 (some 7) rfl,
   (C3_failure_injection.2.2.2.1 [fail_env, open_ok_env] 1 (some 7)).2,
   C3_failure_injection.2.2.2.2 [fail_env, fail_env] 0 none (by decide)⟩

/-- C3 counterexample: the claim as stated also covers an injected mount
failure, but mount failures never drive the machine to `Error`: after five
ticks of injected mount failures from startup the machine sits in
`AwaitFilesystem`, not `Error`. -/
theorem C3_counterexample :
    (run (List.replicate 5 fail_env) APP_Initialize).ctx.state =
        APP_STATE_AWAIT_FILESYSTEM ∧
    APP_STATE_AWAIT_FILESYSTEM ≠ APP_STATE_ERROR := by
  constructor
  · rfl
  · decide

/-- The handle invariant that actually holds of the code: the stored handle
is the invalid handle whenever the state is `Idle`, `AwaitFilesystem` or
`Complete`.  (It does not hold in `Error`: the read-failure path enters
`Error` without clearing the handle.) -/
def handle_inv (c : app_ctx_t) : Prop :=
  (c.state = APP_STATE_IDLE ∨ c.state = APP_STATE_AWAIT_FILESYSTEM ∨
    c.state = APP_STATE_COMPLETE) → c.dir_handle = SYS_FS_HANDLE_INVALID

lemma tick_preserves_handle_inv (env : FsEnv) (ctx : app_ctx_t)
    (h : handle_inv ctx) : handle_inv (APP_Tasks env ctx).ctx := by
  obtain ⟨s, r, hdl⟩ := ctx
  cases s
  case APP_STATE_IDLE =>
    have hh : hdl = SYS_FS_HANDLE_INVALID := h (Or.inl rfl)
    subst hh
    intro _
    rfl
  case APP_STATE_AWAIT_FILESYSTEM =>
    have hh : hdl = SYS_FS_HANDLE_INVALID := h (Or.inr (Or.inl rfl))
    subst hh
    by_cases hm : env.mount = SYS_FS_RES_SUCCESS
    · by_cases hc : env.currentDriveSet = SYS_FS_RES_FAILURE <;>
        simp [APP_Tasks, set_state, hm, hc, handle_inv]
    · by_cases ht : (r + 1) % 4294967296 % 100000 = 0 <;>
        simp [APP_Tasks, hm, ht, handle_inv]
  case APP_STATE_OPENING_DIRECTORY =>
    cases ho : env.dirOpen <;>
      simp [APP_Tasks, set_state, ho, SYS_FS_HANDLE_INVALID, handle_inv]
  case APP_STATE_READING_DIRECTORY =>
    cases hr : env.dirRead with
    | none => simp [APP_Tasks, set_state, hr, handle_inv]
    | some stat =>
      by_cases hterm : stat.lfname = "" ∧ stat.fname = "" <;>
        simp [APP_Tasks, set_state, hr, hterm, handle_inv]
  case APP_STATE_CLOSING_DIRECTORY =>
    cases hc : env.dirClose <;>
      simp [APP_Tasks, set_state, hc, handle_inv, SYS_FS_HANDLE_INVALID]
  case APP_STATE_COMPLETE =>
    intro _
    exact h (Or.inr (Or.inr rfl))
  case APP_STATE_ERROR =>
    simp [APP_Tasks, handle_inv]

lemma run_preserves_handle_inv (envs : List FsEnv) :
    ∀ c, handle_inv c → handle_inv (run envs c).ctx := by
  induction envs with
  | nil => intro c h; exact h
  | cons e rest ih =>
    intro c h
    simp only [run]
    exact ih _ (tick_preserves_handle_inv e c h)

/-- C4 (amended): in every reachable context, the stored directory handle is
the invalid handle whenever the state is `Idle`, `AwaitFilesystem` or
`Complete`.  (`Error` is excluded: the read-failure path parks in `Error`
with the open handle still stored, see `C4_counterexample`.) -/
theorem C4_handle_none_outside_enumeration (envs : List FsEnv)
    (h : (run envs APP_Initialize).ctx.state = APP_STATE_IDLE ∨
      (run envs APP_Initialize).ctx.state = APP_STATE_AWAIT_FILESYSTEM ∨
      (run envs APP_Initialize).ctx.state = APP_STATE_COMPLETE) :
    (run envs APP_Initialize).ctx.dir_handle = SYS_FS_HANDLE_INVALID :=
  run_preserves_handle_inv envs APP_Initialize (fun _ => rfl) h

/-- C4 witness: `C4_handle_none_outside_enumeration` at the empty script. -/
theorem C4_handle_none_witness :
    ((run [] APP_Initialize).ctx.state = APP_STATE_IDLE ∨
      (run [] APP_Initialize).ctx.state = APP_STATE_AWAIT_FILESYSTEM ∨
      (run [] APP_Initialize).ctx.state = APP_STATE_COMPLETE) ∧
    (run [] APP_Initialize).ctx.dir_handle = SYS_FS_HANDLE_INVALID :=
  ⟨Or.inl rfl, C4_handle_none_outside_enumeration [] (Or.inl rfl)⟩

/-- C4 counterexample: the claim as stated also asserts the handle is invalid
in `Error`, but the run mount-ok, open-ok (handle 7), read-failure reaches
`Error` with the handle still stored. -/
theorem C4_counterexample :
    (run [fail_env, await_ok_env, open_ok_env, fail_env] APP_Initialize).ctx =
      ⟨APP_STATE_ERROR, 1, some 7⟩ ∧
    (some 7 : SYS_FS_HANDLE) ≠ SYS_FS_HANDLE_INVALID := by
  constructor
  · rfl
  · decide

/-- The tick script for reading a simulated directory: one successful read
per entry, then one read returning the end-of-directory terminator. -/
def listing_script (entries : List SYS_FS_FSTAT) : List FsEnv :=
  entries.map read_env ++ [read_env dir_terminator]

/-- C1: with N simulated entries followed by the empty/empty terminator,
starting in `ReadingDirectory` with a valid handle, the dispatcher runs
N+1 ticks in `ReadingDirectory` (the `visited` list), reads exactly one
entry per tick, prints exactly one console line per entry in the supplied
order, and the final tick detects the terminator and transitions to
`ClosingDirectory`. -/
theorem C1_reading_loop (entries : List SYS_FS_FSTAT) (r : Nat) (hnd : Nat)
    (hents : ∀ e ∈ entries, ¬(e.lfname = "" ∧ e.fname = "")) :
    run (listing_script entries) ⟨APP_STATE_READING_DIRECTORY, r, some hnd⟩ =
      ⟨⟨APP_STATE_CLOSING_DIRECTORY, r, some hnd⟩,
       entries.map (fun e => Output.consolePrint (entry_line e)) ++
         [Output.consoleMessage "\nDirectory listing complete",
          Output.transitionLog (state_name APP_STATE_READING_DIRECTORY ++ " => " ++
            state_name APP_STATE_CLOSING_DIRECTORY)],
       List.replicate (entries.length + 1) (FsOp.dirRead (some hnd)),
       List.replicate (entries.length + 1) APP_STATE_READING_DIRECTORY⟩ := by
  induction entries with
  | nil =>
    simp [listing_script, run, APP_Tasks, read_env, dir_terminator, fail_env, set_state]
  | cons e rest ih =>
    have he : ¬(e.lfname = "" ∧ e.fname = "") := hents e (List.mem_cons_self e rest)
    have hrest : ∀ e' ∈ rest, ¬(e'.lfname = "" ∧ e'.fname = "") :=
      fun e' he' => hents e' (List.mem_cons_of_mem e he')
    have hfirst :
        APP_Tasks (read_env e) ⟨APP_STATE_READING_DIRECTORY, r, some hnd⟩ =
          ⟨⟨APP_STATE_READING_DIRECTORY, r, some hnd⟩,
           [Output.consolePrint (entry_line e)], [FsOp.dirRead (some hnd)]⟩ := by
      simp [APP_Tasks, read_env, fail_env, he]
    simp only [listing_script, List.map_cons, List.cons_append, run, hfirst]
    rw [listing_script] at ih
    simp [ih hrest, List.replicate_succ]

/-- C1 witness: `C1_reading_loop` on a concrete two-entry directory. -/
theorem C1_reading_loop_witness :
    (∀ e ∈ [({ fname := "FOO.TXT", lfname := "foo.txt", fsize := 42 } : SYS_FS_FSTAT),
            ({ fname := "BAR.BIN", lfname := "", fsize := 0 } : SYS_FS_FSTAT)],
      ¬(e.lfname = "" ∧ e.fname = "")) ∧
    run (listing_script
        [{ fname := "FOO.TXT", lfname := "foo.txt", fsize := 42 },
         { fname := "BAR.BIN", lfname := "", fsize := 0 }])
      ⟨APP_STATE_READING_DIRECTORY, 1, some 3⟩ =
      ⟨⟨APP_STATE_CLOSING_DIRECTORY, 1, some 3⟩,
       [({ fname := "FOO.TXT", lfname := "foo.txt", fsize := 42 } : SYS_FS_FSTAT),
        ({ fname := "BAR.BIN", lfname := "", fsize := 0 } : SYS_FS_FSTAT)].map
           (fun e => Output.consolePrint (entry_line e)) ++
         [Output.consoleMessage "\nDirectory listing complete",
          Output.transitionLog (state_name APP_STATE_READING_DIRECTORY ++ " => " ++
            state_name APP_STATE_CLOSING_DIRECTORY)],
       List.replicate (2 + 1) (FsOp.dirRead (some 3)),
       List.replicate (2 + 1) APP_STATE_READING_DIRECTORY⟩ :=
  ⟨by decide,
   C1_reading_loop
     [{ fname := "FOO.TXT", lfname := "foo.txt", fsize := 42 },
      { fname := "BAR.BIN", lfname := "", fsize := 0 }]
     1 3 (by decide)⟩

/-- The throttled still-waiting diagnostic (app.c lines 127-129) with the
retry count it reports. -/
def still_waiting_log (n : Nat) : Output :=
  Output.debugPrint SYS_ERROR_INFO
    ("\nSD card not ready after " ++ toString (uint32_as_long n) ++ " attempts")

/-- The mount-success diagnostic (app.c lines 112-114). -/
def mounted_log (n : Nat) : Output :=
  Output.debugPrint SYS_ERROR_DEBUG
    ("\nSD card mounted after " ++ toString (uint32_as_long n) ++ " attempts")

/-- The still-waiting logs produced by K consecutive failed mount ticks
starting with the retry counter at r (so the ticks see counts r+1 .. r+K). -/
def still_waiting_outs : Nat → Nat → List Output
  | _, 0 => []
  | r, K + 1 =>
      (if (r + 1) % 100000 = 0 then [still_waiting_log (r + 1)] else []) ++
        still_waiting_outs (r + 1) K

lemma await_fail_tick_full (r : Nat) (hdl : SYS_FS_HANDLE) :
    APP_Tasks fail_env ⟨APP_STATE_AWAIT_FILESYSTEM, r, hdl⟩ =
      ⟨⟨APP_STATE_AWAIT_FILESYSTEM, (r + 1) % 4294967296, hdl⟩,
       if (r + 1) % 4294967296 % 100000 = 0
         then [still_waiting_log ((r + 1) % 4294967296)] else [],
       [FsOp.mount]⟩ := by
  by_cases ht : (r + 1) % 4294967296 % 100000 = 0 <;>
    simp [APP_Tasks, fail_env, ht, still_waiting_log]

lemma run_await_fail (K : Nat) :
    ∀ r : Nat, ∀ hdl : SYS_FS_HANDLE, r + K < 4294967296 →
      run (List.replicate K fail_env) ⟨APP_STATE_AWAIT_FILESYSTEM, r, hdl⟩ =
        ⟨⟨APP_STATE_AWAIT_FILESYSTEM, r + K, hdl⟩, still_waiting_outs r K,
         List.replicate K FsOp.mount,
         List.replicate K APP_STATE_AWAIT_FILESYSTEM⟩ := by
  induction K with
  | zero => intro r hdl h; simp [run, still_waiting_outs]
  | succ K ih =>
    intro r hdl h
    have hlt : r + 1 < 4294967296 := by omega
    have hmod : (r + 1) % 4294967296 = r + 1 := Nat.mod_eq_of_lt hlt
    simp only [List.replicate_succ, run, await_fail_tick_full, hmod]
    rw [ih (r + 1) hdl (by omega)]
    simp [still_waiting_outs, List.replicate_succ]
    omega

lemma still_waiting_outs_count (K : Nat) :
    ∀ r : Nat, ((still_waiting_outs r K).filter is_info_log).length =
      (r + K) / 100000 - r / 100000 := by
  induction K with
  | zero => intro r; simp [still_waiting_outs]
  | succ K ih =>
    intro r
    have h1 : r / 100000 ≤ (r + 1) / 100000 := Nat.div_le_div_right (by omega)
    have h2 : (r + 1) / 100000 ≤ (r + 1 + K) / 100000 := Nat.div_le_div_right (by omega)
    have hback : r + (K + 1) = r + 1 + K := by omega
    rw [hback]
    by_cases hd : (r + 1) % 100000 = 0
    · have hdvd : 100000 ∣ (r + 1) := by omega
      have hs : (r + 1) / 100000 = r / 100000 + 1 := Nat.succ_div_of_dvd hdvd
      simp [still_waiting_outs, hd, is_info_log, still_waiting_log, ih (r + 1)]
      omega
    · have hdvd : ¬100000 ∣ (r + 1) := by omega
      have hs : (r + 1) / 100000 = r / 100000 := Nat.succ_div_of_not_dvd hdvd
      simp [still_waiting_outs, hd, ih (r + 1)]
      omega

lemma run_append (a b : List FsEnv) :
    ∀ ctx : app_ctx_t, run (a ++ b) ctx =
      ⟨(run b (run a ctx).ctx).ctx,
       (run a ctx).outputs ++ (run b (run a ctx).ctx).outputs,
       (run a ctx).ops ++ (run b (run a ctx).ctx).ops,
       (run a ctx).visited ++ (run b (run a ctx).ctx).visited⟩ := by
  induction a with
  | nil => intro ctx; simp [run]
  | cons e rest ih => intro ctx; simp [run, ih]

lemma await_ok_tick (r : Nat) (hdl : SYS_FS_HANDLE) :
    APP_Tasks await_ok_env ⟨APP_STATE_AWAIT_FILESYSTEM, r, hdl⟩ =
      ⟨⟨APP_STATE_OPENING_DIRECTORY, (r + 1) % 4294967296, hdl⟩,
       [mounted_log ((r + 1) % 4294967296),
        Output.transitionLog (state_name APP_STATE_AWAIT_FILESYSTEM ++ " => " ++
          state_name APP_STATE_OPENING_DIRECTORY)],
       [FsOp.mount, FsOp.currentDriveSet]⟩ := by
  simp [APP_Tasks, await_ok_env, fail_env, set_state, mounted_log]

/-- The mount-wait script: K failing mount ticks, then one tick where the
mount and the drive-set succeed. -/
def await_script (K : Nat) : List FsEnv := List.replicate K fail_env ++ [await_ok_env]

lemma await_phase (K : Nat) (hdl : SYS_FS_HANDLE) (h : K + 1 < 4294967296) :
    run (await_script K) ⟨APP_STATE_AWAIT_FILESYSTEM, 0, hdl⟩ =
      ⟨⟨APP_STATE_OPENING_DIRECTORY, K + 1, hdl⟩,
       still_waiting_outs 0 K ++
         [mounted_log (K + 1),
          Output.transitionLog (state_name APP_STATE_AWAIT_FILESYSTEM ++ " => " ++
            state_name APP_STATE_OPENING_DIRECTORY)],
       List.replicate K FsOp.mount ++ [FsOp.mount, FsOp.currentDriveSet],
       List.replicate K APP_STATE_AWAIT_FILESYSTEM ++ [APP_STATE_AWAIT_FILESYSTEM]⟩ := by
  rw [await_script, run_append, run_await_fail K 0 hdl (by omega)]
  simp [run, await_ok_tick, Nat.mod_eq_of_lt h]

/-- C2 (amended): after K failing mount ticks followed by one tick where the
mount and the drive-set succeed, the state leaves `AwaitFilesystem` for
`OpeningDirectory` with `mount_retries = K + 1` (for `K + 1 < 2^32`, the
counter's width), having spent all K+1 ticks in `AwaitFilesystem`; exactly
`floor(K / 100000)` throttled still-waiting diagnostics were emitted during
the wait (0 when K < 100000). -/
theorem C2_mount_retry_counting (K : Nat) (hdl : SYS_FS_HANDLE)
    (h : K + 1 < 4294967296) :
    (run (await_script K) ⟨APP_STATE_AWAIT_FILESYSTEM, 0, hdl⟩).ctx.state =
        APP_STATE_OPENING_DIRECTORY ∧
    (run (await_script K) ⟨APP_STATE_AWAIT_FILESYSTEM, 0, hdl⟩).ctx.mount_retries =
        K + 1 ∧
    ((run (await_script K) ⟨APP_STATE_AWAIT_FILESYSTEM, 0, hdl⟩).outputs.filter
        is_info_log).length = K / 100000 ∧
    (run (await_script K) ⟨APP_STATE_AWAIT_FILESYSTEM, 0, hdl⟩).visited =
        List.replicate (K + 1) APP_STATE_AWAIT_FILESYSTEM := by
  rw [await_phase K hdl h]
  refine ⟨rfl, rfl, ?_, ?_⟩
  · have hc := still_waiting_outs_count K 0
    simp [List.filter_append, is_info_log, mounted_log] at hc ⊢
    omega
  · rw [List.replicate_succ']

/-- C2 witness: `C2_mount_retry_counting` at K = 0 (immediate mount
success). -/
theorem C2_mount_retry_counting_witness :
    0 + 1 < 4294967296 ∧
    ((run (await_script 0) ⟨APP_STATE_AWAIT_FILESYSTEM, 0, none⟩).ctx.state =
        APP_STATE_OPENING_DIRECTORY ∧
      (run (await_script 0) ⟨APP_STATE_AWAIT_FILESYSTEM, 0, none⟩).ctx.mount_retries =
        0 + 1 ∧
      ((run (await_script 0) ⟨APP_STATE_AWAIT_FILESYSTEM, 0, none⟩).outputs.filter
          is_info_log).length = 0 / 100000 ∧
      (run (await_script 0) ⟨APP_STATE_AWAIT_FILESYSTEM, 0, none⟩).visited =
        List.replicate (0 + 1) APP_STATE_AWAIT_FILESYSTEM) :=
  ⟨by norm_num, C2_mount_retry_counting 0 none (by norm_num)⟩

/-- C2 counterexample: at K = 99999 the claimed count `floor((K+1)/100000)`
is 1, but the code emits no throttled diagnostic at all: the still-waiting
log would only fire on the 100000th failed attempt, and the 100000th attempt
succeeds instead. -/
theorem C2_counterexample :
    ((run (await_script 99999) ⟨APP_STATE_AWAIT_FILESYSTEM, 0, none⟩).outputs.filter
        is_info_log).length = 0 ∧
    (0 : Nat) ≠ (99999 + 1) / 100000 := by
  constructor
  · rw [await_phase 99999 none (by norm_num)]
    have hc := still_waiting_outs_count 99999 0
    simp [List.filter_append, is_info_log, mounted_log] at hc ⊢
    exact hc
  · norm_num

lemma uint32_as_long_small (n : Nat) (h : n < 2147483648) :
    uint32_as_long n = (n : Int) := by
  have hm : n % 4294967296 = n := Nat.mod_eq_of_lt (by omega)
  simp [uint32_as_long, hm, h]

lemma toString_uint32_small (n : Nat) (h : n < 2147483648) :
    toString (uint32_as_long n) = toString n := by
  rw [uint32_as_long_small n h]
  rfl

/-- C9 (amended): on a successful directory open the emitted column header is
exactly `"\nsize (bytes) filename"` (not `"size  filename"`), and each entry
line is a newline, the entry's size rendered as a decimal integer
right-justified in a 12-character field (an unsigned rendering for sizes
below `2^31`; the C `%ld` conversion would show larger 32-bit sizes as
negative), a space, and the entry's name. -/
theorem C9_console_format :
    (∀ (env : FsEnv) (r : Nat) (hdl : SYS_FS_HANDLE) (hnd : Nat),
      env.dirOpen = some hnd →
      APP_Tasks env ⟨APP_STATE_OPENING_DIRECTORY, r, hdl⟩ =
        ⟨⟨APP_STATE_READING_DIRECTORY, r, some hnd⟩,
         [Output.consoleMessage "\nsize (bytes) filename",
          Output.transitionLog (state_name APP_STATE_OPENING_DIRECTORY ++ " => " ++
            state_name APP_STATE_READING_DIRECTORY)],
         [FsOp.dirOpen]⟩) ∧
    (∀ (env : FsEnv) (ctx : app_ctx_t) (stat : SYS_FS_FSTAT),
      ctx.state = APP_STATE_READING_DIRECTORY → env.dirRead = some stat →
      ¬(stat.lfname = "" ∧ stat.fname = "") → stat.fsize < 2147483648 →
      (APP_Tasks env ctx).outputs =
        [Output.consolePrint
          ("\n" ++ right_justify 12 (toString stat.fsize) ++ " " ++ stat.fname)]) := by
  constructor
  · intro env r hdl hnd ho
    simp [APP_Tasks, set_state, ho, SYS_FS_HANDLE_INVALID]
  · intro env ctx stat hs hr hterm hsz
    simp [APP_Tasks, hs, hr, hterm, entry_line, toString_uint32_small stat.fsize hsz]

/-- C9 witness: `C9_console_format` at a concrete open and a concrete
entry. -/
theorem C9_console_format_witness :
    (APP_Tasks open_ok_env ⟨APP_STATE_OPENING_DIRECTORY, 1, none⟩ =
      ⟨⟨APP_STATE_READING_DIRECTORY, 1, some 7⟩,
       [Output.consoleMessage "\nsize (bytes) filename",
        Output.transitionLog (state_name APP_STATE_OPENING_DIRECTORY ++ " => " ++
          state_name APP_STATE_READING_DIRECTORY)],
       [FsOp.dirOpen]⟩) ∧
    (APP_Tasks (read_env { fname := "FOO.TXT", lfname := "foo.txt", fsize := 42 })
        ⟨APP_STATE_READING_DIRECTORY, 1, some 7⟩).outputs =
      [Output.consolePrint
        ("\n" ++ right_justify 12 (toString (42 : Nat)) ++ " " ++ "FOO.TXT")] :=
  ⟨C9_console_format.1 open_ok_env 1 none 7 rfl,
   C9_console_format.2 (read_env { fname := "FOO.TXT", lfname := "foo.txt", fsize := 42 })
     ⟨APP_STATE_READING_DIRECTORY, 1, some 7⟩
     { fname := "FOO.TXT", lfname := "foo.txt", fsize := 42 }
     rfl rfl (by decide) (by norm_num)⟩

/-- C9 counterexample: the header actually emitted on a successful directory
open is `"\nsize (bytes) filename"`, not `"size  filename"` as the claim
states. -/
theorem C9_counterexample :
    (APP_Tasks open_ok_env ⟨APP_STATE_OPENING_DIRECTORY, 0, none⟩).outputs.head? =
      some (Output.consoleMessage "\nsize (bytes) filename") ∧
    "\nsize (bytes) filename" ≠ "size  filename" := by
  constructor
  · rfl
  · decide

/-- C10: the console line for a printed entry is built from the status
record's short-name field `fname` (and `fsize`) only, and the long-name
field `lfname` influences the tick only through whether it is empty (the
end-of-directory test): two reads agreeing on `fname`, `fsize` and on the
emptiness of `lfname` produce identical tick results. -/
theorem C10_short_name_printed :
    (∀ (env : FsEnv) (ctx : app_ctx_t) (stat : SYS_FS_FSTAT),
      ctx.state = APP_STATE_READING_DIRECTORY → env.dirRead = some stat →
      ¬(stat.lfname = "" ∧ stat.fname = "") →
      (APP_Tasks env ctx).outputs =
        [Output.consolePrint
          ("\n" ++ right_justify 12 (toString (uint32_as_long stat.fsize)) ++ " " ++
            stat.fname)]) ∧
    (∀ (env env' : FsEnv) (ctx : app_ctx_t) (stat stat' : SYS_FS_FSTAT),
      ctx.state = APP_STATE_READING_DIRECTORY →
      env.dirRead = some stat → env'.dirRead = some stat' →
      stat.fname = stat'.fname → stat.fsize = stat'.fsize →
      (stat.lfname = "" ↔ stat'.lfname = "") →
      APP_Tasks env ctx = APP_Tasks env' ctx) := by
  constructor
  · intro env ctx stat hs hr hterm
    simp [APP_Tasks, hs, hr, hterm, entry_line]
  · intro env env' ctx stat stat' hs hr hr' hn hz hl
    by_cases hterm : stat.lfname = "" ∧ stat.fname = ""
    · have hterm' : stat'.lfname = "" ∧ stat'.fname = "" := by
        refine ⟨hl.mp hterm.1, ?_⟩
        rw [← hn]
        exact hterm.2
      simp [APP_Tasks, hs, hr, hr', hterm, hterm']
    · have hterm' : ¬(stat'.lfname = "" ∧ stat'.fname = "") := by
        intro hh
        exact hterm ⟨hl.mpr hh.1, by rw [hn]; exact hh.2⟩
      simp [APP_Tasks, hs, hr, hr', hterm, hterm', entry_line, hn, hz]
      intro hlf hf'
      exact hterm ⟨hlf, by rw [hn]; exact hf'⟩

/-- C10 witness: `C10_short_name_printed` at a concrete entry, and at two
concrete reads differing only in a nonempty long name. -/
theorem C10_short_name_printed_witness :
    ((APP_Tasks (read_env { fname := "FOO.TXT", lfname := "foo.txt", fsize := 42 })
        ⟨APP_STATE_READING_DIRECTORY, 0, some 7⟩).outputs =
      [Output.consolePrint
        ("\n" ++ right_justify 12 (toString (uint32_as_long 42)) ++ " " ++ "FOO.TXT")]) ∧
    (APP_Tasks (read_env { fname := "FOO.TXT", lfname := "foo.txt", fsize := 42 })
        ⟨APP_STATE_READING_DIRECTORY, 0, some 7⟩ =
      APP_Tasks (read_env { fname := "FOO.TXT", lfname := "other-long-name.txt", fsize := 42 })
        ⟨APP_STATE_READING_DIRECTORY, 0, some 7⟩) :=
  ⟨C10_short_name_printed.1
     (read_env { fname := "FOO.TXT", lfname := "foo.txt", fsize := 42 })
     ⟨APP_STATE_READING_DIRECTORY, 0, some 7⟩
     { fname := "FOO.TXT", lfname := "foo.txt", fsize := 42 }
     rfl rfl (by decide),
   C10_short_name_printed.2
     (read_env { fname := "FOO.TXT", lfname := "foo.txt", fsize := 42 })
     (read_env { fname := "FOO.TXT", lfname := "other-long-name.txt", fsize := 42 })
     ⟨APP_STATE_READING_DIRECTORY, 0, some 7⟩
     { fname := "FOO.TXT", lfname := "foo.txt", fsize := 42 }
     { fname := "FOO.TXT", lfname := "other-long-name.txt", fsize := 42 }
     rfl rfl rfl rfl rfl (by decide)⟩
